import Mathlib

/-!
Shallow embedding of the transform-action module of `spaces-design`
(`src/js/actions/transform.js`, bundled in this snapshot after
`src/js/jsx/shared/Carousel.jsx`), together with proofs about the
commands it defines.

JavaScript numbers are modelled as rationals (`ℚ`): every computation the
module performs on coordinates is +, -, *, / and comparisons.  Optional
object fields (`position.x`, `size.w`, the `angle` payload field) are
modelled as `Option ℚ`, with `hasOwnProperty` becoming `Option.isSome`.
A command's effects (Flux dispatches, native play-object calls, transfers
to other actions, log output) are recorded as an explicit trace, and the
asynchronous outcome of the (single) native call a command issues is an
explicit `Except String Unit` parameter: `.ok ()` when the promise
fulfills, `.error msg` when it rejects.  A `.then` continuation of the
promise chain runs only in the `.ok` case, exactly as in Bluebird.
-/

/-- A layer's `kind` field; only the constructors the module inspects are
distinguished (`layer.layerKinds.GROUP`, `layer.layerKinds.GROUPEND`),
every other kind is `PIXEL`-like `OTHER`. -/
inductive LayerKind where
  | GROUP
  | GROUPEND
  | OTHER
deriving DecidableEq, Repr

/-- The part of a layer model the transform module reads. -/
structure Layer where
  id : ℤ
  kind : LayerKind
  isBackground : Bool
deriving DecidableEq, Repr

/-- A bounds record (`left`, `top`, `right`, `bottom`); `width` and
`height` are the derived fields of the Bounds model. -/
structure Bounds where
  left : ℚ
  top : ℚ
  right : ℚ
  bottom : ℚ
deriving DecidableEq, Repr

/-- Derived `width` field of a bounds record. -/
def Bounds.width (b : Bounds) : ℚ := b.right - b.left

/-- Derived `height` field of a bounds record. -/
def Bounds.height (b : Bounds) : ℚ := b.bottom - b.top

/-- The part of a document model the transform module reads:
`document.id`, `document.bounds`, `document.layers.childBounds`,
`document.layers.descendants`, `document.layers.selected` and
`document.layers.selectedLocked`. -/
structure Document where
  id : ℤ
  bounds : Bounds
  childBounds : Layer → Bounds
  descendants : Layer → List Layer
  selected : List Layer
  selectedLocked : Bool

/-- A `{x?, y?}` position argument: absent fields are `none`
(`position.hasOwnProperty("x")` is `Option.isSome`). -/
structure PositionSpec where
  x : Option ℚ
  y : Option ℚ
deriving DecidableEq, Repr

/-- A `{w?, h?}` size argument. -/
structure SizeSpec where
  w : Option ℚ
  h : Option ℚ
deriving DecidableEq, Repr

/-- A layer reference inside a play object: `layerLib.referenceBy.current`
or `layerLib.referenceBy.id(n)`. -/
inductive LayerTarget where
  | current
  | id (i : ℤ)
deriving DecidableEq, Repr

/-- Flip axis argument (`"horizontal"` / `"vertical"`). -/
inductive Axis where
  | horizontal
  | vertical
deriving DecidableEq, Repr

/-- Serialized native operations (play objects) the module constructs.
`resizeMove` is the `_.merge` of a `layerLib.translate` and a
`layerLib.setSize` descriptor, carrying both the translation deltas and
the target size. -/
inductive PlayObject where
  | translate (docId : ℤ) (target : LayerTarget) (dx dy : ℚ)
  | select (docId : ℤ) (targets : List LayerTarget)
  | resizeMove (docId : ℤ) (target : LayerTarget) (dx dy w h : ℚ)
  | docResize (w h : ℚ)
  | flip (target : LayerTarget) (axis : Axis)
  | rotate (docId : ℤ) (target : LayerTarget) (angle : ℚ)
  | setRadius (radius : ℚ)
deriving DecidableEq, Repr

/-- Flux events the module dispatches, with their payload fields.
`RADII_CHANGED`'s payload sets all four corner radii to the same value,
recorded here once. -/
inductive Event where
  | TRANSLATE_LAYERS (documentID : ℤ) (layerIDs : List ℤ) (position : PositionSpec)
  | RESIZE_DOCUMENT (documentID : ℤ) (layerIDs : List ℤ) (size : SizeSpec)
  | RESIZE_LAYERS (documentID : ℤ) (layerIDs : List ℤ) (size : SizeSpec)
  | RADII_CHANGED (documentID : ℤ) (layerIDs : List ℤ) (radius : ℚ)
deriving DecidableEq, Repr

/-- Targets of `this.transfer(...)`: the `layerActions.resetLayers`
reconciliation (with the layers passed to it) or another transform
action. -/
inductive TransferTarget where
  | resetLayers (docId : ℤ) (layers : List Layer)
  | rotateAction (docId : ℤ) (angle : ℚ)
deriving DecidableEq, Repr

/-- One observable effect of a command run. `nativeCall` is one
`descriptor.playObject` (singleton list) or `descriptor.batchPlayObjects`
(the batch, in order; `swapLayersCommand` additionally passes
history-state metadata, not modelled). -/
inductive Step where
  | dispatch (e : Event)
  | nativeCall (objs : List PlayObject)
  | transfer (t : TransferTarget)
  | logError (msg : String)
deriving DecidableEq, Repr

/-- Errors a command run can end in: a synchronous `throw new Error(msg)`
or the unmodified propagation of a native-call rejection. -/
inductive CmdErr where
  | thrown (msg : String)
  | native (msg : String)
deriving DecidableEq, Repr

/-- A command run: the trace of its effects in order, and its settled
result. -/
abbrev CmdRun := List Step × Except CmdErr Unit

/-- `_transformingAnyGroups`: true if any layer in the spec is a group. -/
def _transformingAnyGroups (layerSpec : List Layer) : Bool :=
  layerSpec.any (fun layer => layer.kind == LayerKind.GROUP)

/-- `_getTranslatePlayObject`: builds the translate play object for one
layer from the document's child bounds and the (possibly partial)
position argument. -/
def _getTranslatePlayObject (document : Document) (layer : Layer)
    (position : PositionSpec) : PlayObject :=
  let childBounds := document.childBounds layer
  let newX := position.x.getD childBounds.left
  let newY := position.y.getD childBounds.top
  PlayObject.translate document.id (LayerTarget.id layer.id)
    (newX - childBounds.left) (newY - childBounds.top)

/-- The `sensitivity = sensitivity || 10` default: an absent argument, and
the falsy number 0, both become 10. -/
def effectiveSensitivity : Option ℚ → ℚ
  | none => 10
  | some s => if s = 0 then 10 else s

/-- `_calculateSwapLocations`: given the document and the two layers at
indices 0 and 1 of the swapped pair, computes the new `{x, y}` for each,
choosing between vertical-edge-close, horizontal-edge-close and the
default corner swap. -/
def _calculateSwapLocations (document : Document) (layer0 layer1 : Layer)
    (sensitivityArg : Option ℚ) : PositionSpec × PositionSpec :=
  let sensitivity := effectiveSensitivity sensitivityArg
  let l1 := document.childBounds layer0
  let l2 := document.childBounds layer1
  let bbLeft := min l1.left l2.left
  let bbRight := max l1.right l2.right
  let bbTop := min l1.top l2.top
  let bbBottom := max l1.bottom l2.bottom
  let l1VertCenter := l1.top + l1.height / 2
  let l2VertCenter := l2.top + l2.height / 2
  let l1HorzCenter := l1.left + l1.width / 2
  let l2HorzCenter := l2.left + l2.width / 2
  let heightFraction := (bbBottom - bbTop) / sensitivity
  let widthFraction := (bbRight - bbLeft) / sensitivity
  let verticalEdgeClose := |l1.left - l2.left| < widthFraction ∨
    |l1.right - l2.right| < widthFraction ∨
    |l1HorzCenter - l2HorzCenter| < widthFraction
  let horizontalEdgeClose := |l1.top - l2.top| < heightFraction ∨
    |l1.bottom - l2.bottom| < heightFraction ∨
    |l1VertCenter - l2VertCenter| < heightFraction
  if verticalEdgeClose then
    (⟨some l1.left, some l2.top⟩, ⟨some l2.left, some l1.top⟩)
  else if horizontalEdgeClose then
    (⟨some (bbLeft + bbRight - l1.right), some l1.top⟩,
     ⟨some (bbLeft + bbRight - l2.right), some l2.top⟩)
  else
    (⟨some l2.left, some l2.top⟩, ⟨some l1.left, some l1.top⟩)

/-- `setPositionCommand`: filters out group-end layers, dispatches the
optimistic `TRANSLATE_LAYERS` event, then issues one native call — a
single translate for exactly one remaining layer, else a
select/translate pair per layer followed by a reselect-all — and, once
the call fulfills, transfers to `resetLayers` when any layer is a group.
The scrutinee of the match is the filtered `layerSpec`; the source tests
`layerSpec.size === 1`, so the catch-all branch covers sizes 0 and ≥ 2. -/
def setPositionCommand (document : Document) (layerSpec : List Layer)
    (position : PositionSpec) (native : Except String Unit) : CmdRun :=
  let filtered := layerSpec.filter (fun layer => !(layer.kind == LayerKind.GROUPEND))
  let layerIDs := filtered.map Layer.id
  let dispatched := Step.dispatch (Event.TRANSLATE_LAYERS document.id layerIDs position)
  match filtered with
  | [layer] =>
    let translateObj := _getTranslatePlayObject document layer position
    let trace := [dispatched, Step.nativeCall [translateObj]]
    match native with
    | Except.error msg => (trace, Except.error (CmdErr.native msg))
    | Except.ok _ =>
      if _transformingAnyGroups [layer] then
        (trace ++ [Step.transfer (TransferTarget.resetLayers document.id
          (document.descendants layer))], Except.ok ())
      else
        (trace, Except.ok ())
  | layers =>
    let playObjects := layers.flatMap (fun layer =>
      [PlayObject.select document.id [LayerTarget.id layer.id],
       _getTranslatePlayObject document layer position])
    let allLayerRefs := layers.map (fun layer => LayerTarget.id layer.id)
    let playObjects := playObjects ++ [PlayObject.select document.id allLayerRefs]
    let trace := [dispatched, Step.nativeCall playObjects]
    match native with
    | Except.error msg => (trace, Except.error (CmdErr.native msg))
    | Except.ok _ =>
      if _transformingAnyGroups layers then
        (trace ++ [Step.transfer (TransferTarget.resetLayers document.id
          ((layers.flatMap document.descendants).dedup))], Except.ok ())
      else
        (trace, Except.ok ())

/-- `swapLayersCommand`: throws synchronously unless exactly two layers
are given; resolves as a no-op if both are group-end entries; otherwise
dispatches two optimistic translate events, issues one batched native
call (select/translate per layer plus a reselect of both), and on
fulfillment transfers to `resetLayers` when either layer is a group.
The source checks `layers.size !== 2` first, so the catch-all branch is
exactly the throwing case. -/
def swapLayersCommand (document : Document) (layers : List Layer)
    (native : Except String Unit) : CmdRun :=
  match layers with
  | [layer0, layer1] =>
    if layer0.kind == LayerKind.GROUPEND && layer1.kind == LayerKind.GROUPEND then
      ([], Except.ok ())
    else
      let newPositions := _calculateSwapLocations document layer0 layer1 none
      let translate0 := _getTranslatePlayObject document layer0 newPositions.1
      let translate1 := _getTranslatePlayObject document layer1 newPositions.2
      let payloadOne := Step.dispatch
        (Event.TRANSLATE_LAYERS document.id [layer0.id] newPositions.1)
      let payloadTwo := Step.dispatch
        (Event.TRANSLATE_LAYERS document.id [layer1.id] newPositions.2)
      let playObjects :=
        [PlayObject.select document.id [LayerTarget.id layer0.id], translate0,
         PlayObject.select document.id [LayerTarget.id layer1.id], translate1,
         PlayObject.select document.id [LayerTarget.id layer0.id, LayerTarget.id layer1.id]]
      let trace := [payloadOne, payloadTwo, Step.nativeCall playObjects]
      match native with
      | Except.error msg => (trace, Except.error (CmdErr.native msg))
      | Except.ok _ =>
        if _transformingAnyGroups [layer0, layer1] then
          (trace ++ [Step.transfer (TransferTarget.resetLayers document.id
            (([layer0, layer1].flatMap document.descendants).dedup))], Except.ok ())
        else
          (trace, Except.ok ())
  | _ => ([], Except.error (CmdErr.thrown "Expected two layers"))

/-- `setBoundsCommand`: one merged translate+resize play object against
the current layer reference, always followed (on fulfillment) by a
`resetLayers` transfer over the descendants of the selected layers. -/
def setBoundsCommand (document : Document) (oldBounds newBounds : Bounds)
    (native : Except String Unit) : CmdRun :=
  let widthDiff := newBounds.width - oldBounds.width
  let heightDiff := newBounds.height - oldBounds.height
  let xDelta := newBounds.left - oldBounds.left + widthDiff / 2
  let yDelta := newBounds.top - oldBounds.top + heightDiff / 2
  let resizeAndMoveObj := PlayObject.resizeMove document.id LayerTarget.current
    xDelta yDelta newBounds.width newBounds.height
  let trace := [Step.nativeCall [resizeAndMoveObj]]
  match native with
  | Except.error msg => (trace, Except.error (CmdErr.native msg))
  | Except.ok _ =>
    (trace ++ [Step.transfer (TransferTarget.resetLayers document.id
      ((document.selected.flatMap document.descendants).dedup))], Except.ok ())

/-- `_getResizePlayObject`: the merged translate+resize play object that
keeps a resized layer anchored at its top left (the native resize
anchors at the center, hence the half-diff translation). -/
def _getResizePlayObject (document : Document) (layer : Layer)
    (size : SizeSpec) : PlayObject :=
  let childBounds := document.childBounds layer
  let newWidth := size.w.getD childBounds.width
  let newHeight := size.h.getD childBounds.height
  let widthDiff := newWidth - childBounds.width
  let heightDiff := newHeight - childBounds.height
  PlayObject.resizeMove document.id (LayerTarget.id layer.id)
    (widthDiff / 2) (heightDiff / 2) newWidth newHeight

/-- `setSizeCommand`: filters out group-end layers; with none left it
dispatches `RESIZE_DOCUMENT` and issues a single document-resize call;
with one layer it dispatches `RESIZE_LAYERS` and issues one merged
translate+resize; with several it issues a batched select/resize pair
per layer plus a reselect-all.  Group layers trigger the `resetLayers`
transfer after fulfillment, as in `setPositionCommand`. -/
def setSizeCommand (document : Document) (layerSpec : List Layer)
    (size : SizeSpec) (native : Except String Unit) : CmdRun :=
  let filtered := layerSpec.filter (fun layer => !(layer.kind == LayerKind.GROUPEND))
  let layerIDs := filtered.map Layer.id
  match filtered with
  | [] =>
    let dispatched := Step.dispatch (Event.RESIZE_DOCUMENT document.id layerIDs size)
    let newWidth := size.w.getD document.bounds.width
    let newHeight := size.h.getD document.bounds.height
    let trace := [dispatched, Step.nativeCall [PlayObject.docResize newWidth newHeight]]
    match native with
    | Except.error msg => (trace, Except.error (CmdErr.native msg))
    | Except.ok _ => (trace, Except.ok ())
  | [layer] =>
    let dispatched := Step.dispatch (Event.RESIZE_LAYERS document.id layerIDs size)
    let resizeAndMoveObj := _getResizePlayObject document layer size
    let trace := [dispatched, Step.nativeCall [resizeAndMoveObj]]
    match native with
    | Except.error msg => (trace, Except.error (CmdErr.native msg))
    | Except.ok _ =>
      if _transformingAnyGroups [layer] then
        (trace ++ [Step.transfer (TransferTarget.resetLayers document.id
          (document.descendants layer))], Except.ok ())
      else
        (trace, Except.ok ())
  | layers =>
    let dispatched := Step.dispatch (Event.RESIZE_LAYERS document.id layerIDs size)
    let playObjects := layers.flatMap (fun layer =>
      [PlayObject.select document.id [LayerTarget.id layer.id],
       _getResizePlayObject document layer size])
    let allLayerRefs := layers.map (fun layer => LayerTarget.id layer.id)
    let playObjects := playObjects ++ [PlayObject.select document.id allLayerRefs]
    let trace := [dispatched, Step.nativeCall playObjects]
    match native with
    | Except.error msg => (trace, Except.error (CmdErr.native msg))
    | Except.ok _ =>
      if _transformingAnyGroups layers then
        (trace ++ [Step.transfer (TransferTarget.resetLayers document.id
          ((layers.flatMap document.descendants).dedup))], Except.ok ())
      else
        (trace, Except.ok ())

/-- `flipCommand`: throws synchronously when no layer, or no
non-background layer, is given; otherwise issues one native flip against
the first non-background layer and, after fulfillment, transfers to
`resetLayers` over the descendants of the whole layer set. -/
def flipCommand (document : Document) (layers : List Layer) (axis : Axis)
    (native : Except String Unit) : CmdRun :=
  if layers.length < 1 then
    ([], Except.error (CmdErr.thrown "Expected at least one layer"))
  else
    match layers.find? (fun l => !l.isBackground) with
    | none =>
      ([], Except.error (CmdErr.thrown "flip was not provided a valid non-background layer"))
    | some repLayer =>
      let trace := [Step.nativeCall [PlayObject.flip (LayerTarget.id repLayer.id) axis]]
      match native with
      | Except.error msg => (trace, Except.error (CmdErr.native msg))
      | Except.ok _ =>
        (trace ++ [Step.transfer (TransferTarget.resetLayers document.id
          ((layers.flatMap document.descendants).dedup))], Except.ok ())

/-- `setRadiusCommand`: dispatches the `RADII_CHANGED` event, then issues
one native set-radius call; no reconciliation transfer. -/
def setRadiusCommand (document : Document) (layers : List Layer) (radius : ℚ)
    (native : Except String Unit) : CmdRun :=
  let dispatched := Step.dispatch
    (Event.RADII_CHANGED document.id (layers.map Layer.id) radius)
  let trace := [dispatched, Step.nativeCall [PlayObject.setRadius radius]]
  match native with
  | Except.error msg => (trace, Except.error (CmdErr.native msg))
  | Except.ok _ => (trace, Except.ok ())

/-- `rotateCommand`: issues one native rotate against the current layer
reference, then always transfers to `resetLayers` over the descendants
of the selected layers. -/
def rotateCommand (document : Document) (angle : ℚ)
    (native : Except String Unit) : CmdRun :=
  let trace := [Step.nativeCall [PlayObject.rotate document.id LayerTarget.current angle]]
  match native with
  | Except.error msg => (trace, Except.error (CmdErr.native msg))
  | Except.ok _ =>
    (trace ++ [Step.transfer (TransferTarget.resetLayers document.id
      ((document.selected.flatMap document.descendants).dedup))], Except.ok ())

/-- The `{angle: number}` payload of
`rotateLayersInCurrentDocumentCommand`; the field is absent when
`payload.hasOwnProperty("angle")` is false. -/
structure RotatePayload where
  angle : Option ℚ
deriving DecidableEq, Repr

/-- The application-store state the current-document helper commands
read. -/
structure AppState where
  currentDocument : Option Document

/-- `rotateLayersInCurrentDocumentCommand`: a missing `angle` field is
logged and resolves as a no-op; a missing or selection-locked current
document resolves as a no-op; otherwise it transfers to the `rotate`
action. -/
def rotateLayersInCurrentDocumentCommand (app : AppState)
    (payload : RotatePayload) : CmdRun :=
  match payload.angle with
  | none => ([Step.logError "Missing angle"], Except.ok ())
  | some angle =>
    match app.currentDocument with
    | none => ([], Except.ok ())
    | some currentDocument =>
      if currentDocument.selectedLocked then
        ([], Except.ok ())
      else
        ([Step.transfer (TransferTarget.rotateAction currentDocument.id angle)],
         Except.ok ())

/-- Lock tokens from `js/locks` that the transform actions declare. -/
inductive Lock where
  | PS_DOC
  | JS_DOC
  | JS_APP
deriving DecidableEq, Repr

/-- The static `reads`/`writes` declaration of an exported action object
(the `command` field is the corresponding command function above). -/
structure ActionDecl where
  reads : List Lock
  writes : List Lock
deriving DecidableEq, Repr

/-- Action `setPosition`. -/
def setPosition : ActionDecl :=
  { reads := [Lock.PS_DOC, Lock.JS_DOC], writes := [Lock.PS_DOC, Lock.JS_DOC] }

/-- Action `setSize`. -/
def setSize : ActionDecl :=
  { reads := [Lock.PS_DOC, Lock.JS_DOC], writes := [Lock.PS_DOC, Lock.JS_DOC] }

/-- Action `setBounds`. -/
def setBounds : ActionDecl :=
  { reads := [Lock.PS_DOC, Lock.JS_DOC], writes := [Lock.PS_DOC, Lock.JS_DOC] }

/-- Action `flipX`. -/
def flipX : ActionDecl :=
  { reads := [Lock.PS_DOC, Lock.JS_DOC], writes := [Lock.PS_DOC, Lock.JS_DOC] }

/-- Action `flipY`. -/
def flipY : ActionDecl :=
  { reads := [Lock.PS_DOC, Lock.JS_DOC], writes := [Lock.PS_DOC, Lock.JS_DOC] }

/-- Action `flipXCurrentDocument`. -/
def flipXCurrentDocument : ActionDecl :=
  { reads := [Lock.PS_DOC, Lock.JS_DOC, Lock.JS_APP],
    writes := [Lock.PS_DOC, Lock.JS_DOC] }

/-- Action `flipYCurrentDocument`. -/
def flipYCurrentDocument : ActionDecl :=
  { reads := [Lock.PS_DOC, Lock.JS_DOC, Lock.JS_APP],
    writes := [Lock.PS_DOC, Lock.JS_DOC] }

/-- Action `swapLayers`. -/
def swapLayers : ActionDecl :=
  { reads := [Lock.PS_DOC, Lock.JS_DOC], writes := [Lock.PS_DOC, Lock.JS_DOC] }

/-- Action `swapLayersCurrentDocument`. -/
def swapLayersCurrentDocument : ActionDecl :=
  { reads := [Lock.PS_DOC, Lock.JS_DOC, Lock.JS_APP],
    writes := [Lock.PS_DOC, Lock.JS_DOC] }

/-- Action `setRadius`. -/
def setRadius : ActionDecl :=
  { reads := [Lock.PS_DOC, Lock.JS_DOC], writes := [Lock.PS_DOC, Lock.JS_DOC] }

/-- Action `rotate`. -/
def rotate : ActionDecl :=
  { reads := [Lock.PS_DOC, Lock.JS_DOC], writes := [Lock.PS_DOC, Lock.JS_DOC] }

/-- Action `rotateLayersInCurrentDocument`. -/
def rotateLayersInCurrentDocument : ActionDecl :=
  { reads := [Lock.PS_DOC, Lock.JS_DOC, Lock.JS_APP],
    writes := [Lock.PS_DOC, Lock.JS_DOC] }

/-- The twelve action objects the module exports. -/
def exportedActions : List ActionDecl :=
  [setPosition, setSize, flipX, flipY, flipXCurrentDocument,
   flipYCurrentDocument, swapLayers, swapLayersCurrentDocument,
   setRadius, setBounds, rotate, rotateLayersInCurrentDocument]

/-- The four exported actions that operate on the current document read
from the application store. -/
def currentDocumentActions : List ActionDecl :=
  [flipXCurrentDocument, flipYCurrentDocument, swapLayersCurrentDocument,
   rotateLayersInCurrentDocument]

/-- Trace classifiers used to state ordering and failure-policy
properties of command runs. -/
def Step.isDispatch : Step → Bool
  | Step.dispatch _ => true
  | _ => false

/-- True on native-call steps. -/
def Step.isNative : Step → Bool
  | Step.nativeCall _ => true
  | _ => false

/-- True on transfer steps. -/
def Step.isTransfer : Step → Bool
  | Step.transfer _ => true
  | _ => false

/-- The part of a trace strictly after its first native call (the whole
trace has no native call ⇒ empty). -/
def suffixAfterFirstNative : List Step → List Step
  | [] => []
  | s :: rest => if s.isNative then rest else suffixAfterFirstNative rest

/-- The failure policy every native-call-issuing transform command obeys,
as a property of the run seen as a function of the native outcome:
every optimistic dispatch precedes the first native call; a rejection
propagates to the caller unmodified, with no compensating dispatch and
no transfer; and a transfer step can only appear when the native call
fulfilled. -/
def FailurePolicy (run : Except String Unit → CmdRun) : Prop :=
  ∀ outcome : Except String Unit,
    ((suffixAfterFirstNative (run outcome).1).all (fun s => !s.isDispatch)) = true ∧
    (∀ msg : String, outcome = Except.error msg →
      (((run outcome).1.any Step.isNative) = true →
        (run outcome).2 = Except.error (CmdErr.native msg)) ∧
      ((run outcome).1.any Step.isTransfer) = false) ∧
    (((run outcome).1.any Step.isTransfer) = true → outcome = Except.ok ())

/-- A plain pixel-like layer with id 0, used in concrete evaluations. -/
def listItemLayer0 : Layer := ⟨0, LayerKind.OTHER, false⟩

/-- A plain pixel-like layer with id 1, used in concrete evaluations. -/
def listItemLayer1 : Layer := ⟨1, LayerKind.OTHER, false⟩

/-- A group-terminator (GROUPEND) layer entry. -/
def groupEndLayer : Layer := ⟨2, LayerKind.GROUPEND, false⟩

/-- A second group-terminator (GROUPEND) layer entry. -/
def groupEndLayer2 : Layer := ⟨4, LayerKind.GROUPEND, false⟩

/-- A background layer. -/
def backgroundLayer : Layer := ⟨3, LayerKind.OTHER, true⟩

/-- A concrete document whose two layers have the bounding boxes of the
stacked-list example: layer 0 at `{left 0, top 0, right 100, bottom 50}`
and layer 1 at `{left 0, top 200, right 100, bottom 250}`. -/
def stackedListDoc : Document :=
  { id := 7
    bounds := ⟨0, 0, 640, 480⟩
    childBounds := fun l => if l.id = 0 then ⟨0, 0, 100, 50⟩ else ⟨0, 200, 100, 250⟩
    descendants := fun l => [l]
    selected := [listItemLayer0, listItemLayer1]
    selectedLocked := false }

/-- A document whose two layers sit side by side on the same row: layer 0
at `{0, 0, 10, 10}` and layer 1 at `{100, 0, 110, 10}`. -/
def sideBySideDoc : Document :=
  { stackedListDoc with
    childBounds := fun l => if l.id = 0 then ⟨0, 0, 10, 10⟩ else ⟨100, 0, 110, 10⟩ }

/-- A document whose two layers are diagonal to each other: layer 0 at
`{0, 0, 10, 10}` and layer 1 at `{100, 100, 110, 110}`. -/
def diagonalDoc : Document :=
  { stackedListDoc with
    childBounds := fun l => if l.id = 0 then ⟨0, 0, 10, 10⟩ else ⟨100, 100, 110, 110⟩ }

/-- `setBoundsCommand` obeys the common failure policy. -/
lemma setBoundsCommand_fp (document : Document) (oldBounds newBounds : Bounds) :
    FailurePolicy (setBoundsCommand document oldBounds newBounds) := by
  intro outcome
  cases outcome <;>
    refine ⟨?_, ?_, ?_⟩ <;>
      simp [setBoundsCommand, suffixAfterFirstNative, Step.isNative, Step.isDispatch,
        Step.isTransfer]

/-- `rotateCommand` obeys the common failure policy. -/
lemma rotateCommand_fp (document : Document) (angle : ℚ) :
    FailurePolicy (rotateCommand document angle) := by
  intro outcome
  cases outcome <;>
    refine ⟨?_, ?_, ?_⟩ <;>
      simp [rotateCommand, suffixAfterFirstNative, Step.isNative, Step.isDispatch,
        Step.isTransfer]

/-- `setRadiusCommand` obeys the common failure policy. -/
lemma setRadiusCommand_fp (document : Document) (layers : List Layer) (radius : ℚ) :
    FailurePolicy (setRadiusCommand document layers radius) := by
  intro outcome
  cases outcome <;>
    refine ⟨?_, ?_, ?_⟩ <;>
      simp [setRadiusCommand, suffixAfterFirstNative, Step.isNative, Step.isDispatch,
        Step.isTransfer]

/-- `flipCommand` obeys the common failure policy. -/
lemma flipCommand_fp (document : Document) (layers : List Layer) (axis : Axis) :
    FailurePolicy (flipCommand document layers axis) := by
  intro outcome
  by_cases hl : layers.length < 1
  · cases outcome <;>
      refine ⟨?_, ?_, ?_⟩ <;>
        simp [flipCommand, hl, suffixAfterFirstNative, Step.isNative, Step.isDispatch,
          Step.isTransfer]
  · rcases hfind : layers.find? (fun l => !l.isBackground) with _ | repLayer <;>
      cases outcome <;>
        refine ⟨?_, ?_, ?_⟩ <;>
          simp [flipCommand, hl, hfind, suffixAfterFirstNative, Step.isNative,
            Step.isDispatch, Step.isTransfer]

/-- `setPositionCommand` obeys the common failure policy. -/
lemma setPositionCommand_fp (document : Document) (layerSpec : List Layer)
    (position : PositionSpec) :
    FailurePolicy (setPositionCommand document layerSpec position) := by
  intro outcome
  rcases hf : layerSpec.filter (fun l => !(l.kind == LayerKind.GROUPEND)) with
    _ | ⟨a, _ | ⟨b, tl⟩⟩ <;>
    cases outcome <;>
      refine ⟨?_, ?_, ?_⟩ <;>
        simp [setPositionCommand, hf, suffixAfterFirstNative, Step.isNative,
          Step.isDispatch, Step.isTransfer] <;>
        split <;>
          simp [suffixAfterFirstNative, Step.isNative, Step.isDispatch, Step.isTransfer]

/-- `setSizeCommand` obeys the common failure policy. -/
lemma setSizeCommand_fp (document : Document) (layerSpec : List Layer)
    (size : SizeSpec) :
    FailurePolicy (setSizeCommand document layerSpec size) := by
  intro outcome
  rcases hf : layerSpec.filter (fun l => !(l.kind == LayerKind.GROUPEND)) with
    _ | ⟨a, _ | ⟨b, tl⟩⟩ <;>
    cases outcome <;>
      refine ⟨?_, ?_, ?_⟩ <;>
        simp [setSizeCommand, hf, suffixAfterFirstNative, Step.isNative,
          Step.isDispatch, Step.isTransfer] <;>
        split <;>
          simp [suffixAfterFirstNative, Step.isNative, Step.isDispatch, Step.isTransfer]

/-- `swapLayersCommand` obeys the common failure policy. -/
lemma swapLayersCommand_fp (document : Document) (layers : List Layer) :
    FailurePolicy (swapLayersCommand document layers) := by
  intro outcome
  rcases layers with _ | ⟨a, _ | ⟨b, _ | ⟨c, tl⟩⟩⟩
  · cases outcome <;>
      refine ⟨?_, ?_, ?_⟩ <;>
        simp [swapLayersCommand, suffixAfterFirstNative, Step.isNative, Step.isDispatch,
          Step.isTransfer]
  · cases outcome <;>
      refine ⟨?_, ?_, ?_⟩ <;>
        simp [swapLayersCommand, suffixAfterFirstNative, Step.isNative, Step.isDispatch,
          Step.isTransfer]
  · by_cases hg : (a.kind == LayerKind.GROUPEND && b.kind == LayerKind.GROUPEND) = true
    · cases outcome <;>
        refine ⟨?_, ?_, ?_⟩ <;>
          simp [swapLayersCommand, hg, suffixAfterFirstNative, Step.isNative,
            Step.isDispatch, Step.isTransfer]
    · cases outcome <;>
        refine ⟨?_, ?_, ?_⟩ <;>
          simp [swapLayersCommand, hg, suffixAfterFirstNative, Step.isNative,
            Step.isDispatch, Step.isTransfer] <;>
          split <;>
            simp [suffixAfterFirstNative, Step.isNative, Step.isDispatch, Step.isTransfer]
  · cases outcome <;>
      refine ⟨?_, ?_, ?_⟩ <;>
        simp [swapLayersCommand, suffixAfterFirstNative, Step.isNative, Step.isDispatch,
          Step.isTransfer]

/-- In every run of `setPositionCommand`, the trace begins with the
optimistic `TRANSLATE_LAYERS` dispatch immediately followed by the
native call. -/
lemma setPositionCommand_dispatch_first (document : Document) (layerSpec : List Layer)
    (position : PositionSpec) (outcome : Except String Unit) :
    ∃ objs rest, (setPositionCommand document layerSpec position outcome).1 =
      Step.dispatch (Event.TRANSLATE_LAYERS document.id
          ((layerSpec.filter (fun l => !(l.kind == LayerKind.GROUPEND))).map Layer.id)
          position) ::
        Step.nativeCall objs :: rest := by
  rcases hf : layerSpec.filter (fun l => !(l.kind == LayerKind.GROUPEND)) with
    _ | ⟨a, _ | ⟨b, tl⟩⟩ <;>
    cases outcome <;>
      simp [setPositionCommand, hf] <;>
      split <;>
        exact ⟨_, _, rfl⟩

/-- Claim C1: whenever the two layers' left edges, right edges or
horizontal centers differ by less than the combined bounding-box width
divided by the sensitivity, `_calculateSwapLocations` keeps each layer's
own horizontal position and gives it the other layer's vertical
position. -/
theorem calculateSwapLocations_verticalEdgeClose
    (document : Document) (layer0 layer1 : Layer) (sensitivityArg : Option ℚ)
    (h : |(document.childBounds layer0).left - (document.childBounds layer1).left| <
          (max (document.childBounds layer0).right (document.childBounds layer1).right -
            min (document.childBounds layer0).left (document.childBounds layer1).left) /
            effectiveSensitivity sensitivityArg ∨
        |(document.childBounds layer0).right - (document.childBounds layer1).right| <
          (max (document.childBounds layer0).right (document.childBounds layer1).right -
            min (document.childBounds layer0).left (document.childBounds layer1).left) /
            effectiveSensitivity sensitivityArg ∨
        |((document.childBounds layer0).left + (document.childBounds layer0).width / 2) -
            ((document.childBounds layer1).left + (document.childBounds layer1).width / 2)| <
          (max (document.childBounds layer0).right (document.childBounds layer1).right -
            min (document.childBounds layer0).left (document.childBounds layer1).left) /
            effectiveSensitivity sensitivityArg) :
    _calculateSwapLocations document layer0 layer1 sensitivityArg =
      (⟨some (document.childBounds layer0).left, some (document.childBounds layer1).top⟩,
       ⟨some (document.childBounds layer1).left, some (document.childBounds layer0).top⟩) := by
  unfold _calculateSwapLocations
  rw [if_pos h]

/-- Witness for C1: the spec's end-to-end example — same left and right
edges, combined width 100, threshold 10 — produces `{x 0, y 200}` and
`{x 0, y 0}`. -/
theorem calculateSwapLocations_verticalEdgeClose_witness :
    _calculateSwapLocations stackedListDoc listItemLayer0 listItemLayer1 none =
      (⟨some 0, some 200⟩, ⟨some 0, some 0⟩) := by
  have h := calculateSwapLocations_verticalEdgeClose stackedListDoc listItemLayer0
    listItemLayer1 none (by
      norm_num [stackedListDoc, listItemLayer0, listItemLayer1, effectiveSensitivity,
        Bounds.width])
  rw [h]
  norm_num [stackedListDoc, listItemLayer0, listItemLayer1]

/-- Claim C2: when the vertical-edge-close rule does not apply,
`_calculateSwapLocations` mirrors each layer's right edge across the
combined box when top edges, bottom edges or vertical centers are close
(keeping vertical positions), and otherwise exchanges the two top-left
corners outright. -/
theorem calculateSwapLocations_notVerticalEdgeClose
    (document : Document) (layer0 layer1 : Layer) (sensitivityArg : Option ℚ)
    (h : ¬ (|(document.childBounds layer0).left - (document.childBounds layer1).left| <
          (max (document.childBounds layer0).right (document.childBounds layer1).right -
            min (document.childBounds layer0).left (document.childBounds layer1).left) /
            effectiveSensitivity sensitivityArg ∨
        |(document.childBounds layer0).right - (document.childBounds layer1).right| <
          (max (document.childBounds layer0).right (document.childBounds layer1).right -
            min (document.childBounds layer0).left (document.childBounds layer1).left) /
            effectiveSensitivity sensitivityArg ∨
        |((document.childBounds layer0).left + (document.childBounds layer0).width / 2) -
            ((document.childBounds layer1).left + (document.childBounds layer1).width / 2)| <
          (max (document.childBounds layer0).right (document.childBounds layer1).right -
            min (document.childBounds layer0).left (document.childBounds layer1).left) /
            effectiveSensitivity sensitivityArg)) :
    ((|(document.childBounds layer0).top - (document.childBounds layer1).top| <
          (max (document.childBounds layer0).bottom (document.childBounds layer1).bottom -
            min (document.childBounds layer0).top (document.childBounds layer1).top) /
            effectiveSensitivity sensitivityArg ∨
        |(document.childBounds layer0).bottom - (document.childBounds layer1).bottom| <
          (max (document.childBounds layer0).bottom (document.childBounds layer1).bottom -
            min (document.childBounds layer0).top (document.childBounds layer1).top) /
            effectiveSensitivity sensitivityArg ∨
        |((document.childBounds layer0).top + (document.childBounds layer0).height / 2) -
            ((document.childBounds layer1).top + (document.childBounds layer1).height / 2)| <
          (max (document.childBounds layer0).bottom (document.childBounds layer1).bottom -
            min (document.childBounds layer0).top (document.childBounds layer1).top) /
            effectiveSensitivity sensitivityArg) →
      _calculateSwapLocations document layer0 layer1 sensitivityArg =
        (⟨some (min (document.childBounds layer0).left (document.childBounds layer1).left +
            max (document.childBounds layer0).right (document.childBounds layer1).right -
            (document.childBounds layer0).right), some (document.childBounds layer0).top⟩,
         ⟨some (min (document.childBounds layer0).left (document.childBounds layer1).left +
            max (document.childBounds layer0).right (document.childBounds layer1).right -
            (document.childBounds layer1).right), some (document.childBounds layer1).top⟩)) ∧
    (¬ (|(document.childBounds layer0).top - (document.childBounds layer1).top| <
          (max (document.childBounds layer0).bottom (document.childBounds layer1).bottom -
            min (document.childBounds layer0).top (document.childBounds layer1).top) /
            effectiveSensitivity sensitivityArg ∨
        |(document.childBounds layer0).bottom - (document.childBounds layer1).bottom| <
          (max (document.childBounds layer0).bottom (document.childBounds layer1).bottom -
            min (document.childBounds layer0).top (document.childBounds layer1).top) /
            effectiveSensitivity sensitivityArg ∨
        |((document.childBounds layer0).top + (document.childBounds layer0).height / 2) -
            ((document.childBounds layer1).top + (document.childBounds layer1).height / 2)| <
          (max (document.childBounds layer0).bottom (document.childBounds layer1).bottom -
            min (document.childBounds layer0).top (document.childBounds layer1).top) /
            effectiveSensitivity sensitivityArg) →
      _calculateSwapLocations document layer0 layer1 sensitivityArg =
        (⟨some (document.childBounds layer1).left, some (document.childBounds layer1).top⟩,
         ⟨some (document.childBounds layer0).left, some (document.childBounds layer0).top⟩)) := by
  constructor
  · intro h2
    unfold _calculateSwapLocations
    rw [if_neg h, if_pos h2]
  · intro h2
    unfold _calculateSwapLocations
    rw [if_neg h, if_neg h2]

/-- Witness for C2: side-by-side boxes take the mirror branch
(`x` becomes `combinedLeft + combinedRight - right`), diagonal boxes take
the corner-swap branch. -/
theorem calculateSwapLocations_notVerticalEdgeClose_witness :
    _calculateSwapLocations sideBySideDoc listItemLayer0 listItemLayer1 none =
      (⟨some 100, some 0⟩, ⟨some 0, some 0⟩) ∧
    _calculateSwapLocations diagonalDoc listItemLayer0 listItemLayer1 none =
      (⟨some 100, some 100⟩, ⟨some 0, some 0⟩) := by
  have h1 := (calculateSwapLocations_notVerticalEdgeClose sideBySideDoc listItemLayer0
    listItemLayer1 none (by
      norm_num [sideBySideDoc, stackedListDoc, listItemLayer0, listItemLayer1,
        effectiveSensitivity, Bounds.width])).1 (by
      norm_num [sideBySideDoc, stackedListDoc, listItemLayer0, listItemLayer1,
        effectiveSensitivity, Bounds.height])
  have h2 := (calculateSwapLocations_notVerticalEdgeClose diagonalDoc listItemLayer0
    listItemLayer1 none (by
      norm_num [diagonalDoc, stackedListDoc, listItemLayer0, listItemLayer1,
        effectiveSensitivity, Bounds.width])).2 (by
      norm_num [diagonalDoc, stackedListDoc, listItemLayer0, listItemLayer1,
        effectiveSensitivity, Bounds.height])
  refine ⟨?_, ?_⟩
  · rw [h1]
    norm_num [sideBySideDoc, stackedListDoc, listItemLayer0, listItemLayer1]
  · rw [h2]
    norm_num [diagonalDoc, stackedListDoc, listItemLayer0, listItemLayer1]

/-- Claim C3: the native-call-issuing transform commands dispatch their
optimistic events before the first native call, propagate a native
rejection to the caller unmodified with no compensating dispatch and no
transfer, and run their reconciliation transfer only when the native
call fulfilled; for `setPositionCommand` the trace moreover always
starts with the optimistic dispatch immediately followed by the native
call. -/
theorem transform_commands_failure_policy
    (document : Document) (layerSpec layers : List Layer) (position : PositionSpec)
    (size : SizeSpec) (oldBounds newBounds : Bounds) (axis : Axis) (radius angle : ℚ) :
    FailurePolicy (setPositionCommand document layerSpec position) ∧
    FailurePolicy (swapLayersCommand document layers) ∧
    FailurePolicy (setBoundsCommand document oldBounds newBounds) ∧
    FailurePolicy (setSizeCommand document layerSpec size) ∧
    FailurePolicy (flipCommand document layers axis) ∧
    FailurePolicy (setRadiusCommand document layers radius) ∧
    FailurePolicy (rotateCommand document angle) ∧
    (∀ outcome, ∃ objs rest,
      (setPositionCommand document layerSpec position outcome).1 =
        Step.dispatch (Event.TRANSLATE_LAYERS document.id
            ((layerSpec.filter (fun l => !(l.kind == LayerKind.GROUPEND))).map Layer.id)
            position) ::
          Step.nativeCall objs :: rest) :=
  ⟨setPositionCommand_fp document layerSpec position,
   swapLayersCommand_fp document layers,
   setBoundsCommand_fp document oldBounds newBounds,
   setSizeCommand_fp document layerSpec size,
   flipCommand_fp document layers axis,
   setRadiusCommand_fp document layers radius,
   rotateCommand_fp document angle,
   setPositionCommand_dispatch_first document layerSpec position⟩

/-- Witness for C3: a concrete rejected `setPositionCommand` run
propagates the rejection unmodified and performs no transfer. -/
theorem transform_commands_failure_policy_witness :
    (setPositionCommand stackedListDoc [listItemLayer0] ⟨some 5, some 7⟩
        (Except.error "boom")).2 = Except.error (CmdErr.native "boom") ∧
    ((setPositionCommand stackedListDoc [listItemLayer0] ⟨some 5, some 7⟩
        (Except.error "boom")).1.any Step.isTransfer) = false := by
  have h := (transform_commands_failure_policy stackedListDoc [listItemLayer0]
      [listItemLayer0] ⟨some 5, some 7⟩ ⟨none, none⟩ ⟨0, 0, 1, 1⟩ ⟨0, 0, 2, 2⟩
      Axis.horizontal 1 30).1 (Except.error "boom")
  obtain ⟨-, h2, -⟩ := h
  obtain ⟨h21, h22⟩ := h2 "boom" rfl
  refine ⟨h21 ?_, h22⟩
  simp [setPositionCommand, listItemLayer0, Step.isNative]

/-- Claim C4: `flipCommand` with no non-background layer (including the
empty set) fails synchronously with a thrown error and records no step
at all — no play object reaches the gateway. -/
theorem flip_no_nonbackground_fails
    (document : Document) (layers : List Layer) (axis : Axis)
    (native : Except String Unit)
    (h : layers.all (fun l => l.isBackground) = true) :
    (flipCommand document layers axis native).1 = [] ∧
    ((flipCommand document layers axis native).2 =
        Except.error (CmdErr.thrown "Expected at least one layer") ∨
      (flipCommand document layers axis native).2 =
        Except.error (CmdErr.thrown "flip was not provided a valid non-background layer")) := by
  have hfind : layers.find? (fun l => !l.isBackground) = none := by
    rw [List.find?_eq_none]
    intro x hx
    have := List.all_eq_true.mp h x hx
    simp [this]
  unfold flipCommand
  rw [hfind]
  by_cases hl : layers.length < 1
  · simp [hl]
  · simp [hl]

/-- Witness for C4: flipping a set holding only a background layer
throws with an empty trace. -/
theorem flip_no_nonbackground_fails_witness :
    (flipCommand stackedListDoc [backgroundLayer] Axis.horizontal (Except.ok ())).1 = [] ∧
    ((flipCommand stackedListDoc [backgroundLayer] Axis.horizontal (Except.ok ())).2 =
        Except.error (CmdErr.thrown "Expected at least one layer") ∨
      (flipCommand stackedListDoc [backgroundLayer] Axis.horizontal (Except.ok ())).2 =
        Except.error (CmdErr.thrown "flip was not provided a valid non-background layer")) :=
  flip_no_nonbackground_fails stackedListDoc [backgroundLayer] Axis.horizontal
    (Except.ok ()) (by simp [backgroundLayer])

/-- Claim C5: `swapLayersCommand` throws synchronously — empty trace, no
dispatch, no native call — unless given exactly two layers, and resolves
as a no-op with an empty trace when both given layers are GROUPEND
entries. -/
theorem swapLayers_preconditions
    (document : Document) (layers : List Layer) (native : Except String Unit) :
    (layers.length ≠ 2 →
      swapLayersCommand document layers native =
        ([], Except.error (CmdErr.thrown "Expected two layers"))) ∧
    (∀ layer0 layer1, layers = [layer0, layer1] →
      layer0.kind = LayerKind.GROUPEND → layer1.kind = LayerKind.GROUPEND →
      swapLayersCommand document layers native = ([], Except.ok ())) := by
  constructor
  · intro hlen
    match layers with
    | [] => rfl
    | [a] => rfl
    | [a, b] => exact absurd rfl hlen
    | a :: b :: c :: tl => rfl
  · intro layer0 layer1 heq h0 h1
    subst heq
    unfold swapLayersCommand
    simp [h0, h1]

/-- Witness for C5: one layer throws; two GROUPEND layers resolve as a
no-op. -/
theorem swapLayers_preconditions_witness :
    swapLayersCommand stackedListDoc [listItemLayer0] (Except.ok ()) =
      ([], Except.error (CmdErr.thrown "Expected two layers")) ∧
    swapLayersCommand stackedListDoc [groupEndLayer, groupEndLayer2] (Except.ok ()) =
      ([], Except.ok ()) :=
  ⟨(swapLayers_preconditions stackedListDoc [listItemLayer0] (Except.ok ())).1
      (by simp),
   (swapLayers_preconditions stackedListDoc [groupEndLayer, groupEndLayer2]
      (Except.ok ())).2 groupEndLayer groupEndLayer2 rfl rfl rfl⟩

/-- Claim C6: `setSizeCommand` with no layer left after filtering out
GROUPEND entries issues exactly one native call, a document resize built
from the given size with the document bounds as fallback — in particular
no layer-select and no layer-resize play object. -/
theorem setSize_no_layers_document_resize
    (document : Document) (layerSpec : List Layer) (size : SizeSpec)
    (native : Except String Unit)
    (h : layerSpec.filter (fun l => !(l.kind == LayerKind.GROUPEND)) = []) :
    ((setSizeCommand document layerSpec size native).1.filter Step.isNative) =
      [Step.nativeCall [PlayObject.docResize
        (size.w.getD document.bounds.width) (size.h.getD document.bounds.height)]] := by
  unfold setSizeCommand
  rw [h]
  cases native with
  | error msg => simp [Step.isNative]
  | ok _ => simp [Step.isNative]

/-- Witness for C6: two GROUPEND layers, width 800 given, height absent:
the only native call is the document resize to 800 by 480. -/
theorem setSize_no_layers_document_resize_witness :
    ((setSizeCommand stackedListDoc [groupEndLayer, groupEndLayer2]
        ⟨some 800, none⟩ (Except.ok ())).1.filter Step.isNative) =
      [Step.nativeCall [PlayObject.docResize 800 480]] := by
  have h := setSize_no_layers_document_resize stackedListDoc
    [groupEndLayer, groupEndLayer2] ⟨some 800, none⟩ (Except.ok ())
    (by simp [groupEndLayer, groupEndLayer2])
  rw [h]
  norm_num [stackedListDoc, Bounds.height]

/-- Claim C7: `setPositionCommand` with exactly one non-GROUPEND layer
issues exactly one native call holding a single translate play object
addressed to that layer — no select and no restore-selection call. -/
theorem setPosition_single_layer_one_translate
    (document : Document) (layerSpec : List Layer) (position : PositionSpec)
    (layer : Layer) (native : Except String Unit)
    (h : layerSpec.filter (fun l => !(l.kind == LayerKind.GROUPEND)) = [layer]) :
    ((setPositionCommand document layerSpec position native).1.filter Step.isNative) =
      [Step.nativeCall [PlayObject.translate document.id (LayerTarget.id layer.id)
        (position.x.getD (document.childBounds layer).left -
          (document.childBounds layer).left)
        (position.y.getD (document.childBounds layer).top -
          (document.childBounds layer).top)]] := by
  unfold setPositionCommand
  rw [h]
  cases native with
  | error msg =>
    simp [Step.isNative, _getTranslatePlayObject]
  | ok _ =>
    by_cases hg : _transformingAnyGroups [layer] = true
    · simp [hg, Step.isNative, _getTranslatePlayObject]
    · simp [hg, Step.isNative, _getTranslatePlayObject]

/-- Witness for C7: a GROUPEND entry plus one real layer leaves a single
translate native call with the expected deltas. -/
theorem setPosition_single_layer_one_translate_witness :
    ((setPositionCommand stackedListDoc [groupEndLayer, listItemLayer0]
        ⟨some 5, some 7⟩ (Except.ok ())).1.filter Step.isNative) =
      [Step.nativeCall [PlayObject.translate 7 (LayerTarget.id 0) 5 7]] := by
  have h := setPosition_single_layer_one_translate stackedListDoc
    [groupEndLayer, listItemLayer0] ⟨some 5, some 7⟩ listItemLayer0 (Except.ok ())
    (by simp [groupEndLayer, listItemLayer0])
  rw [h]
  norm_num [stackedListDoc, listItemLayer0]

/-- Claim C8: `setBoundsCommand` issues exactly one native call, the
merged translate+resize with deltas
`(new.left - old.left + (new.width - old.width)/2,
new.top - old.top + (new.height - old.height)/2)` and target size
`new.width` by `new.height`, and on fulfillment always transfers to the
`resetLayers` reconciliation over the descendants of the selected
layers. -/
theorem setBounds_single_call (document : Document) (oldBounds newBounds : Bounds)
    (msg : String) :
    setBoundsCommand document oldBounds newBounds (Except.ok ()) =
      ([Step.nativeCall [PlayObject.resizeMove document.id LayerTarget.current
          (newBounds.left - oldBounds.left + (newBounds.width - oldBounds.width) / 2)
          (newBounds.top - oldBounds.top + (newBounds.height - oldBounds.height) / 2)
          newBounds.width newBounds.height],
        Step.transfer (TransferTarget.resetLayers document.id
          ((document.selected.flatMap document.descendants).dedup))],
       Except.ok ()) ∧
    setBoundsCommand document oldBounds newBounds (Except.error msg) =
      ([Step.nativeCall [PlayObject.resizeMove document.id LayerTarget.current
          (newBounds.left - oldBounds.left + (newBounds.width - oldBounds.width) / 2)
          (newBounds.top - oldBounds.top + (newBounds.height - oldBounds.height) / 2)
          newBounds.width newBounds.height]],
       Except.error (CmdErr.native msg)) :=
  ⟨rfl, rfl⟩

/-- Claim C9: `rotateLayersInCurrentDocumentCommand` with a payload
lacking the angle field logs an error and resolves as a no-op — no
dispatch, no native call, no transfer — instead of failing. -/
theorem rotateLayers_missing_angle (app : AppState) (payload : RotatePayload)
    (h : payload.angle = none) :
    rotateLayersInCurrentDocumentCommand app payload =
      ([Step.logError "Missing angle"], Except.ok ()) := by
  unfold rotateLayersInCurrentDocumentCommand
  rw [h]

/-- Witness for C9: a concrete app state and an angle-less payload. -/
theorem rotateLayers_missing_angle_witness :
    rotateLayersInCurrentDocumentCommand ⟨some stackedListDoc⟩ ⟨none⟩ =
      ([Step.logError "Missing angle"], Except.ok ()) :=
  rotateLayers_missing_angle ⟨some stackedListDoc⟩ ⟨none⟩ rfl

/-- Claim C10: every exported transform action declares
`writes = {PS_DOC, JS_DOC}`, its writes are a subset of its reads, and
the current-document variants read `JS_APP` in addition (their read set
is exactly `{PS_DOC, JS_DOC, JS_APP}`). -/
theorem transformActionLockSets :
    (exportedActions.all (fun a =>
        decide (a.writes.toFinset = ({Lock.PS_DOC, Lock.JS_DOC} : Finset Lock)) &&
        decide (a.writes.toFinset ⊆ a.reads.toFinset))) = true ∧
    (currentDocumentActions.all (fun a =>
        decide (a.reads.toFinset =
          ({Lock.PS_DOC, Lock.JS_DOC, Lock.JS_APP} : Finset Lock)))) = true := by
  decide
